import Mathlib

/-!
Verification of the neighbourhood-processing engine of the `improver`
meteorological post-processing toolkit (`BasicNeighbourhoodProcessing`).

The engine itself (`improver/nbhood.py`) is not among the extracted source
files; only its unit tests are.  The definitions below are therefore
modelled from the specification (spec.md sections 3-4), with the weighted
kernel falloff derived exactly from the literal fixture arrays in
`tests/test_nbhood_basicneighbourhoodprocessing.py`, which the spec
designates as the defining artefacts for the falloff function.

Data values are rationals: all fixture values are exact decimals, and the
computation (kernel-weighted averages of 0/1 fields) is exact in `ℚ`.
-/

namespace Improver

/-- Modelled from the spec: the error kinds of section 7, raised by the
missing `improver/nbhood.py`.  Each constructor stands for the `ValueError`
message documented in the spec: `nanDetected` for "NaN detected in input
cube data", `invalidGrid` for "Invalid grid: projection x/y coordinates
required", `zeroCellExtent r` for "radius of r km gives zero cell
extent" (carrying the offending radius value named in the message),
`exceedsMaximum r` for "radius of r km exceeds maximum grid cell extent",
`realizationsError` for "Does not operate across realizations", and
`negativeDimensions` for "negative dimensions are not allowed". -/
inductive NBError where
  | nanDetected : NBError
  | invalidGrid : NBError
  | zeroCellExtent : ℚ → NBError
  | exceedsMaximum : ℚ → NBError
  | realizationsError : NBError
  | negativeDimensions : NBError
  deriving DecidableEq

/-- Modelled from the spec: the Grid/Cube data model of section 3, for the
missing `improver/nbhood.py`.  A cube has leading time slices (`nt`), a 2D
spatial block of `nr` rows (y) by `nc` columns (x), projected-or-geographic
horizontal coordinates given by their first two points and a factor
converting the coordinate unit to metres, an optional realization axis, the
floating-point data (with NaN modelled by the separate flag `isNaN`, since
`ℚ` has no NaN), and an optional validity mask. -/
structure Cube where
  nt : ℕ
  nr : ℕ
  nc : ℕ
  isProjection : Bool
  hasRealization : Bool
  xUnitFactor : ℚ
  x0 : ℚ
  x1 : ℚ
  yUnitFactor : ℚ
  y0 : ℚ
  y1 : ℚ
  data : ℕ → ℕ → ℕ → ℚ
  isNaN : ℕ → ℕ → ℕ → Bool
  mask : ℕ → ℕ → ℕ → Bool

/-- Modelled from the spec: the NaN validation scan of section 4.4 step 1
("reject if any input value is NaN") of the missing `improver/nbhood.py`:
whether any cell of the cube's data carries a NaN. -/
def Cube.hasNaN (c : Cube) : Bool :=
  (List.range c.nt).any fun t =>
    (List.range c.nr).any fun p =>
      (List.range c.nc).any fun q => c.isNaN t p q

/-- Replace the validity mask of a cube, leaving everything else alone. -/
def Cube.setMask (c : Cube) (m : ℕ → ℕ → ℕ → Bool) : Cube :=
  { c with mask := m }

/-- Modelled from the spec: GridGeometry (section 4.1) of the missing
`improver/nbhood.py`.  Fails with the invalid-grid configuration error when
the coordinates are geographic rather than projected; otherwise converts
the coordinate units to metres and returns the (x, y) spacing as the
absolute difference of the first two coordinate points. -/
def gridSpacing (c : Cube) : Except NBError (ℚ × ℚ) :=
  if c.isProjection then
    .ok (|c.x1 - c.x0| * c.xUnitFactor, |c.y1 - c.y0| * c.yUnitFactor)
  else
    .error .invalidGrid

/-- Modelled from the spec: RadiusConverter (section 4.2) of the missing
`improver/nbhood.py`.  Converts a radius in km to integer cell counts per
axis as round(radius_km * 1000 / spacing); fails with the zero-extent
configuration error when either range rounds to zero, and with the
exceeds-maximum error when either range exceeds the implementation ceiling
of 500 cells.  A negative radius yields negative ranges, which propagate
(spec 4.2: they surface later as the negative-dimensions failure). -/
def radius_to_cells (radius_in_km : ℚ) (dx dy : ℚ) : Except NBError (ℤ × ℤ) :=
  let rx : ℤ := round (radius_in_km * 1000 / dx)
  let ry : ℤ := round (radius_in_km * 1000 / dy)
  if rx = 0 ∨ ry = 0 then .error (.zeroCellExtent radius_in_km)
  else if 500 < rx ∨ 500 < ry then .error (.exceedsMaximum radius_in_km)
  else .ok (rx, ry)

/-- Modelled from the spec: the geometry-plus-conversion step of the missing
`improver/nbhood.py` (the method `get_grid_x_y_kernel_ranges` exercised by
`Test_operation_radius_to_grid_cells`): derive the grid spacing in metres,
then convert the radius to per-axis cell ranges. -/
def get_grid_x_y_kernel_ranges (c : Cube) (radius_in_km : ℚ) :
    Except NBError (ℤ × ℤ) :=
  match gridSpacing c with
  | .error e => .error e
  | .ok (dx, dy) => radius_to_cells radius_in_km dx dy

/-- Sum of `f` over the integers from `a` to `b` inclusive. -/
def sumZ (a b : ℤ) (f : ℤ → ℚ) : ℚ :=
  ((List.range (b + 1 - a).toNat).map fun k => f (a + k)).sum

/-- Modelled from the spec: KernelBuilder (section 4.3) of the missing
`improver/nbhood.py`.  Weight of the kernel cell at row offset `i` and
column offset `j` from the centre.  Flat variant: 1 inside the ellipse
(i/range_y)^2 + (j/range_x)^2 <= 1, else 0.  Weighted variant:
max(0, 1 - (i^2 + j^2)/(range_x * range_y)), the radial falloff that
reproduces the literal fixture arrays of the unit tests (e.g. the range-3
centroid 0.928, 0.936, ... and the corner fixture 0.592, ...). -/
def kernelWeight (unweighted_mode : Bool) (rx ry : ℕ) (i j : ℤ) : ℚ :=
  if unweighted_mode then
    if ((i : ℚ) ^ 2 / (ry : ℚ) ^ 2 + (j : ℚ) ^ 2 / (rx : ℚ) ^ 2) ≤ 1 then 1
    else 0
  else
    max 0 (1 - ((i : ℚ) ^ 2 + (j : ℚ) ^ 2) / ((rx : ℚ) * (ry : ℚ)))

/-- Modelled from the spec: edge replication (nearest-neighbour extension)
boundary handling of section 4.4 step 5 of the missing `improver/nbhood.py`:
an out-of-grid index is clamped to the nearest in-bounds index. -/
def clampIndex (n : ℕ) (k : ℤ) : ℕ :=
  (min k ((n : ℤ) - 1)).toNat

/-- Modelled from the spec: the per-cell sliding-window weighted correlation
of section 4.4 step 5 of the missing `improver/nbhood.py`: at cell (p, q)
the output is the sum of kernel-weight times value over the window (with
edge replication), divided by the sum of the kernel weights over the
window. -/
def smooth (nr nc : ℕ) (f : ℕ → ℕ → ℚ) (unweighted_mode : Bool)
    (rx ry : ℕ) (p q : ℕ) : ℚ :=
  (sumZ (-(ry : ℤ)) ry fun i => sumZ (-(rx : ℤ)) rx fun j =>
    kernelWeight unweighted_mode rx ry i j *
      f (clampIndex nr (p + i)) (clampIndex nc (q + j))) /
  (sumZ (-(ry : ℤ)) ry fun i => sumZ (-(rx : ℤ)) rx fun j =>
    kernelWeight unweighted_mode rx ry i j)

/-- Modelled from the spec: NeighbourhoodProcessor.process (section 4.4) of
the missing `improver/nbhood.py`.  Linear pipeline: validate (NaN, then
realization axis), derive geometry and per-axis cell ranges (propagating
their failures verbatim), reject negative ranges at array construction,
then apply the sliding-window correlation per time slice, reassembling an
output cube of identical shape and coordinates.  Any failure aborts with no
output cube produced. -/
def process (c : Cube) (radius_in_km : ℚ) (unweighted_mode : Bool := false) :
    Except NBError Cube :=
  if c.hasNaN then .error .nanDetected
  else if c.hasRealization then .error .realizationsError
  else
    match get_grid_x_y_kernel_ranges c radius_in_km with
    | .error e => .error e
    | .ok (rx, ry) =>
      if rx < 0 ∨ ry < 0 then .error .negativeDimensions
      else
        .ok { c with data := fun t p q =>
                smooth c.nr c.nc (c.data t) unweighted_mode rx.toNat ry.toNat p q }

/-- The OSGB UK National Grid test cube of the unit tests (`set_up_cube`):
one time slice, 16 x 16 cells, projected coordinates in metres with 2000 m
spacing, all-ones data except a single zero at row `zr`, column `zc`, no
NaN and no mask. -/
def osgbCube (zr zc : ℕ) : Cube :=
  { nt := 1, nr := 16, nc := 16
    isProjection := true, hasRealization := false
    xUnitFactor := 1, x0 := 0, x1 := 2000
    yUnitFactor := 1, y0 := 0, y1 := 2000
    data := fun _ p q => if p = zr ∧ q = zc then 0 else 1
    isNaN := fun _ _ _ => false
    mask := fun _ _ _ => false }

/-- The same OSGB test cube with its spatial coordinates expressed in
kilometres instead of metres (the unit-conversion variant of
`Test_operation_radius_to_grid_cells`): points 2 km apart with a factor of
1000 metres per coordinate unit. -/
def osgbCubeKm (zr zc : ℕ) : Cube :=
  { osgbCube zr zc with
    xUnitFactor := 1000, x0 := 0, x1 := 2
    yUnitFactor := 1000, y0 := 0, y1 := 2 }

/-- The data value at slice `t`, row `p`, column `q` of the cube produced
by a successful neighbourhood-processing run, or `none` when the run
failed with an error. -/
def resultData (e : Except NBError Cube) (t p q : ℕ) : Option ℚ :=
  match e with
  | .error _ => none
  | .ok c => some (c.data t p q)

/-- The literal 5 x 5 expected footprint `SINGLE_POINT_RANGE_3_CENTROID`
of the unit tests, as exact rationals. -/
def SINGLE_POINT_RANGE_3_CENTROID : List (List ℚ) :=
  [[0.992, 0.968, 0.96, 0.968, 0.992],
   [0.968, 0.944, 0.936, 0.944, 0.968],
   [0.96, 0.936, 0.928, 0.936, 0.96],
   [0.968, 0.944, 0.936, 0.944, 0.968],
   [0.992, 0.968, 0.96, 0.968, 0.992]]

/-- The literal 3 x 3 expected corner footprint of
`test_single_point_on_corner`, as exact rationals. -/
def SINGLE_POINT_ON_CORNER_CENTROID : List (List ℚ) :=
  [[0.592, 0.768, 0.92],
   [0.768, 0.872, 0.96],
   [0.92, 0.96, 0.992]]

/-- The grid expected by the footprint tests: value of the fixture `fix`
placed with its top-left entry at row `r0`, column `c0`, and 1 everywhere
else (both beyond the fixture's extent and before `r0`/`c0`). -/
def expectedFromFixture (fix : List (List ℚ)) (r0 c0 : ℕ) (p q : ℕ) : ℚ :=
  if r0 ≤ p ∧ c0 ≤ q then (fix.getD (p - r0) []).getD (q - c0) 1 else 1

/-- The OSGB test cube with a NaN planted at row 6, column 7
(`test_single_point_nan`). -/
def nanCube : Cube :=
  { osgbCube 7 7 with isNaN := fun _ p q => decide (p = 6 ∧ q = 7) }

/-- The OSGB test cube equipped with a realization dimension
(`test_fail_multiple_realisations`). -/
def realizationCube : Cube := { osgbCube 7 7 with hasRealization := true }

/-- A cube carrying both a realization dimension and a NaN value: the
validation pipeline of spec section 4.4 step 1 checks NaN before the
realization axis, so this cube is rejected with the NaN error. -/
def realizationNaNCube : Cube :=
  { osgbCube 7 7 with hasRealization := true
                      isNaN := fun _ p q => decide (p = 6 ∧ q = 7) }

/-- The latitude/longitude variant of the test cube
(`set_up_cube_lat_long`): same data, geographic instead of projected
coordinates. -/
def latLongCube : Cube := { osgbCube 7 7 with isProjection := false }

/-- A latitude/longitude cube that also carries a NaN value: the NaN
validation of spec section 4.4 step 1 runs before the geometry check of
step 2, so this cube is rejected with the NaN error, not the
invalid-grid error. -/
def latLongNaNCube : Cube :=
  { osgbCube 7 7 with isProjection := false
                      isNaN := fun _ p q => decide (p = 6 ∧ q = 7) }

/-- A latitude/longitude cube that also carries a realization dimension:
the realization validation of spec section 4.4 step 1 runs before the
geometry check of step 2, so this cube is rejected with the realization
error, not the invalid-grid error. -/
def latLongRealizationCube : Cube :=
  { osgbCube 7 7 with isProjection := false, hasRealization := true }

/-- Replacing the mask leaves the NaN scan unchanged: `process` reads no
mask during validation. -/
theorem setMask_hasNaN (c : Cube) (m : ℕ → ℕ → ℕ → Bool) :
    (c.setMask m).hasNaN = c.hasNaN := rfl

/-- Replacing the mask leaves the realization flag unchanged. -/
theorem setMask_hasRealization (c : Cube) (m : ℕ → ℕ → ℕ → Bool) :
    (c.setMask m).hasRealization = c.hasRealization := rfl

/-- Replacing the mask leaves the geometry and radius conversion
unchanged: neither reads the mask. -/
theorem setMask_ranges (c : Cube) (m : ℕ → ℕ → ℕ → Bool) (r : ℚ) :
    get_grid_x_y_kernel_ranges (c.setMask m) r =
      get_grid_x_y_kernel_ranges c r := rfl

/-- Replacing the mask leaves the slice count unchanged. -/
theorem setMask_nt (c : Cube) (m : ℕ → ℕ → ℕ → Bool) :
    (c.setMask m).nt = c.nt := rfl

/-- Replacing the mask leaves the row count unchanged. -/
theorem setMask_nr (c : Cube) (m : ℕ → ℕ → ℕ → Bool) :
    (c.setMask m).nr = c.nr := rfl

/-- Replacing the mask leaves the column count unchanged. -/
theorem setMask_nc (c : Cube) (m : ℕ → ℕ → ℕ → Bool) :
    (c.setMask m).nc = c.nc := rfl

/-- Replacing the mask leaves the coordinate kind unchanged. -/
theorem setMask_isProjection (c : Cube) (m : ℕ → ℕ → ℕ → Bool) :
    (c.setMask m).isProjection = c.isProjection := rfl

/-- Replacing the mask leaves the x unit factor unchanged. -/
theorem setMask_xUnitFactor (c : Cube) (m : ℕ → ℕ → ℕ → Bool) :
    (c.setMask m).xUnitFactor = c.xUnitFactor := rfl

/-- Replacing the mask leaves the first x coordinate point unchanged. -/
theorem setMask_x0 (c : Cube) (m : ℕ → ℕ → ℕ → Bool) :
    (c.setMask m).x0 = c.x0 := rfl

/-- Replacing the mask leaves the second x coordinate point unchanged. -/
theorem setMask_x1 (c : Cube) (m : ℕ → ℕ → ℕ → Bool) :
    (c.setMask m).x1 = c.x1 := rfl

/-- Replacing the mask leaves the y unit factor unchanged. -/
theorem setMask_yUnitFactor (c : Cube) (m : ℕ → ℕ → ℕ → Bool) :
    (c.setMask m).yUnitFactor = c.yUnitFactor := rfl

/-- Replacing the mask leaves the first y coordinate point unchanged. -/
theorem setMask_y0 (c : Cube) (m : ℕ → ℕ → ℕ → Bool) :
    (c.setMask m).y0 = c.y0 := rfl

/-- Replacing the mask leaves the second y coordinate point unchanged. -/
theorem setMask_y1 (c : Cube) (m : ℕ → ℕ → ℕ → Bool) :
    (c.setMask m).y1 = c.y1 := rfl

/-- Replacing the mask leaves the data values unchanged. -/
theorem setMask_data (c : Cube) (m : ℕ → ℕ → ℕ → Bool) :
    (c.setMask m).data = c.data := rfl

/-- Replacing the mask leaves the NaN flags unchanged. -/
theorem setMask_isNaN (c : Cube) (m : ℕ → ℕ → ℕ → Bool) :
    (c.setMask m).isNaN = c.isNaN := rfl

/-- Expansion of the integer-range sum from -1 to 1 into its three
terms. -/
theorem sumZ_neg_one_one (g : ℤ → ℚ) : sumZ (-1) 1 g = g (-1) + g 0 + g 1 := by
  have h3 : ((1 : ℤ) + 1 - -1).toNat = 3 := rfl
  rw [sumZ, h3]
  simp [List.range_succ]
  ring

/-- An in-bounds index is left alone by the edge-replication clamp. -/
theorem clampIndex_coe_of_lt {n p : ℕ} (h : p < n) :
    clampIndex n (p : ℤ) = p := by
  rw [clampIndex, min_eq_left (by omega : (p : ℤ) ≤ (n : ℤ) - 1)]
  omega

/-- With a weighted kernel of range 1 on both axes, the only non-zero
kernel weight is the centre weight 1, so the sliding-window correlation
returns the cell's own value at every in-bounds cell. -/
theorem smooth_range_1 (nr nc : ℕ) (f : ℕ → ℕ → ℚ) (p q : ℕ)
    (hp : p < nr) (hq : q < nc) :
    smooth nr nc f false 1 1 p q = f p q := by
  rw [smooth]
  push_cast
  simp only [sumZ_neg_one_one]
  norm_num [kernelWeight]
  rw [clampIndex_coe_of_lt hp, clampIndex_coe_of_lt hq]

/-- On a projected grid, a successful geometry-plus-radius conversion
returns per axis the rounded quotient of the radius in metres by the
spacing in metres, the spacing being the coordinate-point difference
scaled by the unit-to-metres factor. -/
theorem ranges_eq_round (c : Cube) (r : ℚ) (gx gy : ℤ)
    (hp : c.isProjection = true)
    (h : get_grid_x_y_kernel_ranges c r = .ok (gx, gy)) :
    gx = round (r * 1000 / (|c.x1 - c.x0| * c.xUnitFactor)) ∧
    gy = round (r * 1000 / (|c.y1 - c.y0| * c.yUnitFactor)) := by
  simp only [get_grid_x_y_kernel_ranges, gridSpacing, hp, if_true,
    radius_to_cells] at h
  split at h
  · exact absurd h (by simp)
  · split at h
    · exact absurd h (by simp)
    · injection h with h2
      injection h2 with hx hy
      exact ⟨hx.symm, hy.symm⟩

/-- Claim C1: processing the all-ones 16 x 16 OSGB grid (2 km spacing) with
a single zero cell at row 7, column 7, with a radius of 6.3 km (which
converts to a cell range of 3) in weighted mode, returns a grid that is
1.0 everywhere except the 5 x 5 footprint centred on the zero cell, whose
values are exactly the literal fixture `SINGLE_POINT_RANGE_3_CENTROID`:
the weighted kernel-averaged correlation reproduces these exact values. -/
theorem single_point_range_3_footprint :
    ∀ p, p < 16 → ∀ q, q < 16 →
      resultData (process (osgbCube 7 7) (6.3 : ℚ)) 0 p q =
        some (expectedFromFixture SINGLE_POINT_RANGE_3_CENTROID 5 5 p q) :=
  of_decide_eq_true (by with_unfolding_all rfl)

/-- Witness for claim C1: the theorem instantiated at the centre cell
(7, 7), whose expected value is the fixture's centre entry 0.928. -/
theorem single_point_range_3_footprint_witness :
    resultData (process (osgbCube 7 7) (6.3 : ℚ)) 0 7 7 =
      some (expectedFromFixture SINGLE_POINT_RANGE_3_CENTROID 5 5 7 7) :=
  single_point_range_3_footprint 7 (by decide) 7 (by decide)

/-- Claim C3: boundary handling is edge replication, so for the all-ones
16 x 16 OSGB grid with the single zero cell exactly on the corner (row 0,
column 0) and the range-3 weighted radius of 6.3 km, processing returns
the specific 3 x 3 corner fixture `SINGLE_POINT_ON_CORNER_CENTROID`
(0.592 at the corner itself) with the rest of the grid 1.0 — the values
produced by clamping out-of-grid kernel positions to the nearest in-bounds
cell, not by reflection or zero padding. -/
theorem single_point_on_corner_footprint :
    ∀ p, p < 16 → ∀ q, q < 16 →
      resultData (process (osgbCube 0 0) (6.3 : ℚ)) 0 p q =
        some (expectedFromFixture SINGLE_POINT_ON_CORNER_CENTROID 0 0 p q) :=
  of_decide_eq_true (by with_unfolding_all rfl)

/-- Witness for claim C3: the theorem instantiated at the corner cell
(0, 0), whose expected value is the fixture's corner entry 0.592. -/
theorem single_point_on_corner_footprint_witness :
    resultData (process (osgbCube 0 0) (6.3 : ℚ)) 0 0 0 =
      some (expectedFromFixture SINGLE_POINT_ON_CORNER_CENTROID 0 0 0 0) :=
  single_point_on_corner_footprint 0 (by decide) 0 (by decide)

/-- Claim C4: in unweighted (flat) mode the kernel weight is 1 at offsets
inside the ellipse and 0 outside, so for the all-ones 16 x 16 OSGB grid
with one zero cell at (7, 7) and a radius of 4.2 km (which converts to a
cell range of 2), every cell whose elliptical neighbourhood contains the
zero cell — i.e. whose offset (i, j) from the zero cell satisfies
i^2 + j^2 <= 4 — gets exactly 12/13 (the 13-cell flat disc average with
one zero), and every other cell stays 1.0. -/
theorem single_point_flat_range_2 :
    ∀ p, p < 16 → ∀ q, q < 16 →
      resultData (process (osgbCube 7 7) (4.2 : ℚ) true) 0 p q =
        some (if ((p : ℤ) - 7) ^ 2 + ((q : ℤ) - 7) ^ 2 ≤ 4
              then 12 / 13 else 1) :=
  of_decide_eq_true (by with_unfolding_all rfl)

/-- Witness for claim C4: the theorem instantiated at the centre cell
(7, 7), which lies inside the disc and so takes the value 12/13. -/
theorem single_point_flat_range_2_witness :
    resultData (process (osgbCube 7 7) (4.2 : ℚ) true) 0 7 7 =
      some (if ((7 : ℤ) - 7) ^ 2 + ((7 : ℤ) - 7) ^ 2 ≤ 4
            then 12 / 13 else 1) :=
  single_point_flat_range_2 7 (by decide) 7 (by decide)

/-- Claim C2: for every grid with equally spaced projected coordinates,
the radius-to-cells conversion returns per axis the integer
round(radius_km * 1000 / spacing), with coordinate units converted to
metres first (spacing = point difference times the unit-to-metres
factor); in particular, on the 2000 m OSGB test grid a radius of 6.1 km
yields ranges (3, 3), and the same (3, 3) results when the grid's
coordinates are expressed in kilometres. -/
theorem radius_conversion :
    (∀ (c : Cube) (r : ℚ) (gx gy : ℤ), c.isProjection = true →
        get_grid_x_y_kernel_ranges c r = .ok (gx, gy) →
        gx = round (r * 1000 / (|c.x1 - c.x0| * c.xUnitFactor)) ∧
        gy = round (r * 1000 / (|c.y1 - c.y0| * c.yUnitFactor))) ∧
      get_grid_x_y_kernel_ranges (osgbCube 7 7) (6.1 : ℚ) = .ok (3, 3) ∧
      get_grid_x_y_kernel_ranges (osgbCubeKm 7 7) (6.1 : ℚ) = .ok (3, 3) :=
  ⟨fun c r gx gy => ranges_eq_round c r gx gy,
    by with_unfolding_all rfl, by with_unfolding_all rfl⟩

/-- Witness for claim C2: the universally quantified conjunct
instantiated at the metre-unit OSGB test grid with radius 6.1 km and the
computed ranges (3, 3). -/
theorem radius_conversion_witness :
    (osgbCube 7 7).isProjection = true ∧
      ((3 : ℤ) = round ((6.1 : ℚ) * 1000 /
          (|(osgbCube 7 7).x1 - (osgbCube 7 7).x0| *
            (osgbCube 7 7).xUnitFactor)) ∧
        (3 : ℤ) = round ((6.1 : ℚ) * 1000 /
          (|(osgbCube 7 7).y1 - (osgbCube 7 7).y0| *
            (osgbCube 7 7).yUnitFactor))) :=
  ⟨rfl, radius_conversion.1 (osgbCube 7 7) (6.1 : ℚ) 3 3 rfl
    (by with_unfolding_all rfl)⟩

/-- Claim C5: for every input grid containing at least one NaN value,
`process` fails with the "NaN detected in input cube data" error — NaN is
a hard precondition failure checked first in the pipeline, never treated
as missing data — and no output cube is produced (the run aborts before
any data is touched). -/
theorem nan_rejected (c : Cube) (radius_in_km : ℚ) (unweighted_mode : Bool)
    (h : c.hasNaN = true) :
    process c radius_in_km unweighted_mode = .error .nanDetected := by
  simp [process, h]

/-- Witness for claim C5: the OSGB test cube with a NaN planted at
(6, 7) is rejected with the NaN error. -/
theorem nan_rejected_witness :
    nanCube.hasNaN = true ∧
      process nanCube (6.3 : ℚ) false = .error .nanDetected :=
  ⟨rfl, nan_rejected nanCube (6.3 : ℚ) false rfl⟩

/-- Claim C6: for every NaN-free, realization-free projected grid and
every radius whose computed cell range rounds to zero on either axis
(every radius below the minimum-cell threshold for the grid spacing),
`process` fails with the "radius of r km gives zero cell extent"
configuration error carrying the offending radius value, and produces no
output cube. -/
theorem zero_cell_extent_rejected (c : Cube) (r : ℚ) (u : Bool)
    (hn : c.hasNaN = false) (hr : c.hasRealization = false)
    (hp : c.isProjection = true)
    (hz : round (r * 1000 / (|c.x1 - c.x0| * c.xUnitFactor)) = 0 ∨
          round (r * 1000 / (|c.y1 - c.y0| * c.yUnitFactor)) = 0) :
    process c r u = .error (.zeroCellExtent r) := by
  rcases hz with h | h <;>
    simp [process, hn, hr, get_grid_x_y_kernel_ranges, gridSpacing, hp,
      radius_to_cells, h]

/-- Witness for claim C6: a radius of 0.005 km on the 2000 m OSGB test
grid rounds to a zero cell range and is rejected with the zero-extent
error naming 0.005. -/
theorem zero_cell_extent_rejected_witness :
    process (osgbCube 7 7) (0.005 : ℚ) false =
      .error (.zeroCellExtent (0.005 : ℚ)) :=
  zero_cell_extent_rejected (osgbCube 7 7) (0.005 : ℚ) false rfl rfl rfl
    (Or.inl (by with_unfolding_all rfl))

/-- Claim C7 (amended): for every NaN-free grid without a realization
dimension whose horizontal coordinates are geographic latitude/longitude
rather than projected x/y, `process` fails with the "Invalid grid:
projection x/y coordinates required" configuration error, regardless of
the radius value and of the (NaN-free) data values.  The original claim's
"regardless of the data values" is cut back: the NaN scan of the
validation step runs before the geometry check, so a lat/long grid
containing a NaN is rejected with the NaN error instead (see the
counterexample). -/
theorem lat_long_rejected (c : Cube) (radius_in_km : ℚ)
    (unweighted_mode : Bool) (hn : c.hasNaN = false)
    (hr : c.hasRealization = false) (hp : c.isProjection = false) :
    process c radius_in_km unweighted_mode = .error .invalidGrid := by
  simp [process, hn, hr, get_grid_x_y_kernel_ranges, gridSpacing, hp]

/-- Witness for claim C7: the lat/long variant of the test cube is
rejected with the invalid-grid error. -/
theorem lat_long_rejected_witness :
    latLongCube.isProjection = false ∧
      process latLongCube (6.3 : ℚ) false = .error .invalidGrid :=
  ⟨rfl, lat_long_rejected latLongCube (6.3 : ℚ) false rfl rfl rfl⟩

/-- Counterexample to claim C7 as stated: a latitude/longitude grid whose
data contains a NaN is rejected with the NaN error, and a
latitude/longitude grid carrying a realization dimension is rejected with
the realization error — neither with the invalid-grid error — because the
validation step runs before the geometry check.  So the claim's
"regardless of the data values" (and its implicit coverage of
realization-carrying grids) fails. -/
theorem lat_long_claim_counterexample :
    (latLongNaNCube.isProjection = false ∧
      process latLongNaNCube (6.3 : ℚ) false = .error .nanDetected ∧
      (Except.error NBError.nanDetected : Except NBError Cube) ≠
        .error .invalidGrid) ∧
    (latLongRealizationCube.isProjection = false ∧
      process latLongRealizationCube (6.3 : ℚ) false =
        .error .realizationsError ∧
      (Except.error NBError.realizationsError : Except NBError Cube) ≠
        .error .invalidGrid) :=
  ⟨⟨rfl, by simp [process, show latLongNaNCube.hasNaN = true from rfl],
      fun h => NBError.noConfusion (Except.error.inj h)⟩,
    ⟨rfl, by simp [process, show latLongRealizationCube.hasNaN = false from rfl,
        show latLongRealizationCube.hasRealization = true from rfl],
      fun h => NBError.noConfusion (Except.error.inj h)⟩⟩

/-- Claim C8 (amended): for every NaN-free grid carrying a realization
dimension, `process` fails with the "Does not operate across
realizations" error, regardless of the radius and of the (NaN-free) data
values — the operator never mixes across ensemble members.  The original
claim's "regardless of the data values" is cut back: the NaN scan runs
first in the validation step, so a realization grid containing a NaN is
rejected with the NaN error instead (see the counterexample). -/
theorem realization_rejected (c : Cube) (radius_in_km : ℚ)
    (unweighted_mode : Bool) (hn : c.hasNaN = false)
    (hr : c.hasRealization = true) :
    process c radius_in_km unweighted_mode = .error .realizationsError := by
  simp [process, hn, hr]

/-- Witness for claim C8: the test cube equipped with a realization
dimension is rejected with the realization error. -/
theorem realization_rejected_witness :
    realizationCube.hasNaN = false ∧ realizationCube.hasRealization = true ∧
      process realizationCube (6.3 : ℚ) false = .error .realizationsError :=
  ⟨rfl, rfl, realization_rejected realizationCube (6.3 : ℚ) false rfl rfl⟩

/-- Counterexample to claim C8 as stated: a grid carrying a realization
dimension whose data contains a NaN is rejected with the NaN error, not
the realization error, because the NaN validation runs first — so the
claim's "regardless of the data values" fails. -/
theorem realization_claim_counterexample :
    realizationNaNCube.hasRealization = true ∧
      process realizationNaNCube (6.3 : ℚ) false = .error .nanDetected ∧
      (Except.error NBError.nanDetected : Except NBError Cube) ≠
        .error .realizationsError :=
  ⟨rfl, by simp [process, show realizationNaNCube.hasNaN = true from rfl],
    fun h => NBError.noConfusion (Except.error.inj h)⟩

/-- Claim C9: the validity mask is ignored by the correlation step — for
every input grid, radius and mode, running `process` on the grid with any
mask attached returns exactly the same output data (and the same error on
failure) as running it on the grid without that mask: a two-run
noninterference statement in which the mask has no influence on the
output data. -/
theorem mask_ignored (c : Cube) (m : ℕ → ℕ → ℕ → Bool) (radius_in_km : ℚ)
    (unweighted_mode : Bool) :
    (process (c.setMask m) radius_in_km unweighted_mode).map Cube.data =
      (process c radius_in_km unweighted_mode).map Cube.data := by
  simp only [process, setMask_hasNaN, setMask_hasRealization, setMask_ranges,
    setMask_nt, setMask_nr, setMask_nc, setMask_isProjection,
    setMask_xUnitFactor, setMask_x0, setMask_x1, setMask_yUnitFactor,
    setMask_y0, setMask_y1, setMask_data, setMask_isNaN]
  cases hn : c.hasNaN with
  | true => simp
  | false =>
    cases hr : c.hasRealization with
    | true => simp
    | false =>
      cases hg : get_grid_x_y_kernel_ranges c radius_in_km with
      | error e => simp
      | ok pair =>
        obtain ⟨rx, ry⟩ := pair
        by_cases hneg : rx < 0 ∨ ry < 0
        · simp [hneg]
        · simp [hneg, Except.map]

/-- Claim C10: for every valid input grid (NaN-free, projected
coordinates, no realization axis), `process` in weighted mode with a
radius whose cell range rounds to exactly 1 on both axes is the identity
on the data at every in-bounds cell: the range-1 weighted kernel carries
non-zero weight only at its centre, so no smoothing occurs. -/
theorem range_1_identity (c : Cube) (r : ℚ)
    (hn : c.hasNaN = false) (hr : c.hasRealization = false)
    (hp : c.isProjection = true)
    (hx : round (r * 1000 / (|c.x1 - c.x0| * c.xUnitFactor)) = 1)
    (hy : round (r * 1000 / (|c.y1 - c.y0| * c.yUnitFactor)) = 1)
    (t p q : ℕ) (hpn : p < c.nr) (hqn : q < c.nc) :
    resultData (process c r false) t p q = some (c.data t p q) := by
  simp [process, hn, hr, get_grid_x_y_kernel_ranges, gridSpacing, hp,
    radius_to_cells, hx, hy, resultData]
  exact smooth_range_1 c.nr c.nc (c.data t) p q hpn hqn

/-- Witness for claim C10: on the OSGB test cube a radius of 2.1 km
rounds to a cell range of 1 on both axes, and the processed value at cell
(3, 3) equals the input value there. -/
theorem range_1_identity_witness :
    resultData (process (osgbCube 7 7) (2.1 : ℚ) false) 0 3 3 =
      some ((osgbCube 7 7).data 0 3 3) :=
  range_1_identity (osgbCube 7 7) (2.1 : ℚ) rfl rfl rfl
    (by with_unfolding_all rfl) (by with_unfolding_all rfl) 0 3 3
    (by decide) (by decide)

end Improver
